import Mathlib

/-!
Verification of the frame lifecycle and processing-block pipeline of a
Rust wrapper over a vendor depth-camera SDK.

Foreign handles are modelled as natural numbers.  Foreign calls are
modelled by oracle parameters recording the outcome each call would
produce, and by explicit event logs (release calls, error frees, pushes)
so that resource accounting can be stated and proved.  Rust `Option` in a
struct field becomes Lean `Option`; a Rust `unwrap` that can fail becomes
an `Option` result; fallible operations return `Except`.
-/

namespace RealSense

/-! ## Error translation layer (src/error.rs) -/

/-- Character code 39, the ASCII apostrophe, used inside foreign error
message prefixes. -/
def apos : Char := Char.ofNat 39

/-- Boolean prefix test on character lists, embedding Rust
str::starts_with as used by ErrorChecker::check. -/
def strStarts : List Char → List Char → Bool
  | [], _ => true
  | _ :: _, [] => false
  | p :: ps, c :: cs => p == c && strStarts ps cs

/-- Message head that classifies a foreign error as Timeout:
the text is: Frame didn(apostrophe)t arrive within (trailing space). -/
def timeoutMsgHead : List Char :=
  "Frame didn".data ++ [apos] ++ "t arrive within ".data

/-- Message head that classifies a foreign error as UnsupportedOption:
the text is: object doesn(apostrophe)t support option #. -/
def unsupportedMsgHead : List Char :=
  "object doesn".data ++ [apos] ++ "t support option #".data

/-- Error type of src/error.rs.  Each foreign-resource variant carries the
foreign error message (the handle own content we can observe). -/
inductive RsError where
  | toCStrConversion (reason : List Char)
  | timeout (msg : List Char)
  | unsupportedOption (msg : List Char)
  | other (msg : List Char)
  deriving DecidableEq, Repr

/-- Classification of a non-null foreign error by message content,
embedding the match in ErrorChecker::check (src/error.rs lines 48-55). -/
def classifyError (msg : List Char) : RsError :=
  if strStarts timeoutMsgHead msg then RsError.timeout msg
  else if strStarts unsupportedMsgHead msg then RsError.unsupportedOption msg
  else RsError.other msg

/-- State of an ErrorChecker (src/error.rs lines 26-30): the checked flag
and the error slot.  A null slot is none; a non-null slot is some msg
where msg is the foreign error message. -/
structure ErrorChecker where
  checked : Bool
  ptr : Option (List Char)
  deriving DecidableEq, Repr

/-- Constructor ErrorChecker::new: not yet checked, null slot. -/
def ErrorChecker.new : ErrorChecker :=
  { checked := false, ptr := none }

/-- Writing through inner_mut_ptr: the foreign call fills the slot
(none models a call that left it null). -/
def ErrorChecker.fillSlot (c : ErrorChecker) (p : Option (List Char)) :
    ErrorChecker :=
  { c with ptr := p }

/-- Embedding of ErrorChecker::check (src/error.rs lines 44-60).  The
method consumes self after setting checked; we return the final state
together with the result. -/
def ErrorChecker.check (c : ErrorChecker) :
    ErrorChecker × Except RsError Unit :=
  let c2 := { c with checked := true }
  match c.ptr with
  | none => (c2, Except.ok ())
  | some msg => (c2, Except.error (classifyError msg))

/-- Embedding of the Drop impl for ErrorChecker (src/error.rs lines
63-69): the destructor panics exactly when the checked flag is false. -/
def ErrorChecker.dropPanics (c : ErrorChecker) : Bool :=
  !c.checked

/-! ## Composite frame ownership (src/frame/composite.rs) -/

/-- CompositeFrame (src/frame/composite.rs lines 18-22): holds an
optional raw frame handle; the slot is none once ownership was
transferred out. -/
structure CompositeFrame where
  frame : Option Nat
  deriving DecidableEq, Repr

/-- Embedding of the From impl for NonNull handles
(src/frame/composite.rs lines 37-41). -/
def CompositeFrame.fromRaw (h : Nat) : CompositeFrame :=
  { frame := some h }

/-- Release calls performed by the Drop impl (src/frame/composite.rs
lines 26-35): release the handle exactly when the slot is populated. -/
def CompositeFrame.dropReleases (f : CompositeFrame) : List Nat :=
  match f.frame with
  | some h => [h]
  | none => []

/-- Embedding of CompositeFrame::get_owned_raw (src/frame/composite.rs
lines 146-148): mem::take clears the slot and the taken value is
unwrapped (none models the unwrap panic on an already-cleared slot). -/
def CompositeFrame.get_owned_raw (f : CompositeFrame) :
    CompositeFrame × Option Nat :=
  ({ frame := none }, f.frame)

end RealSense

namespace RealSense

/-! ## Frame extraction from a composite frame
(CompositeFrame::frames_of_type, src/frame/composite.rs lines 87-134) -/

/-- Observable outcome of the foreign calls made for one element index of
the extraction loop: whether rs2_extract_frame succeeds, the extracted
handle, whether rs2_is_frame_extendable_to errors, its boolean value when
it does not, whether the typed construction F::try_from succeeds, and
whether the constructed value has_correct_kind. -/
structure ElemOutcome where
  extractOk : Bool
  handle : Nat
  extendErr : Bool
  isExtendable : Bool
  tryFromOk : Bool
  correctKind : Bool
  deriving DecidableEq, Repr

/-- Observable foreign effects of the extraction loop: freeing a foreign
error (rs2_free_error), releasing a frame handle (rs2_release_frame,
whether called directly by the loop or by the typed wrapper destructor),
and pushing a typed value owning a handle into the result vector. -/
inductive Event where
  | freeError
  | release (h : Nat)
  | push (h : Nat)
  deriving DecidableEq, Repr

/-- Body of the extraction loop for one index, translated branch by
branch from src/frame/composite.rs lines 92-131.  kindAny is the value of
the test F::kind() == Rs2StreamKind::Any of line 118.  When try_from
succeeds but the kind test fails, the constructed value is dropped at the
end of the iteration and its destructor releases the handle. -/
def processElem (kindAny : Bool) (e : ElemOutcome) : List Event :=
  if e.extractOk = false then [Event.freeError]
  else if e.extendErr = true then [Event.freeError, Event.release e.handle]
  else if e.isExtendable = false then [Event.release e.handle]
  else if e.tryFromOk = false then [Event.release e.handle]
  else if (kindAny || e.correctKind) = true then [Event.push e.handle]
  else [Event.release e.handle]

/-- Embedding of CompositeFrame::frames_of_type: the loop over indices
0..count, each index contributing its foreign-call events in order. -/
def frames_of_type (kindAny : Bool) (elems : List ElemOutcome) : List Event :=
  (elems.map (processElem kindAny)).flatten

/-- Predicate for an element that the extraction pass returns: the
extract call succeeded, the extendability check did not error and held,
the typed construction succeeded, and the category accepts any kind or
the kind matches. -/
def passesChecks (kindAny : Bool) (e : ElemOutcome) : Bool :=
  e.extractOk && !e.extendErr && e.isExtendable && e.tryFromOk &&
    (kindAny || e.correctKind)

/-- Handles pushed into the result vector by a list of events. -/
def pushedOf (evs : List Event) : List Nat :=
  evs.filterMap fun ev =>
    match ev with
    | Event.push h => some h
    | _ => none

/-- Handles released by a list of events. -/
def releasedOf (evs : List Event) : List Nat :=
  evs.filterMap fun ev =>
    match ev with
    | Event.release h => some h
    | _ => none

/-! ## Spatial processing block options (src/processing_blocks/spatial.rs) -/

/-- Foreign calls a Spatial option method can issue, identified by the
numeric option tag. -/
inductive FCall where
  | supportsCall (o : Nat)
  | readOnlyCall (o : Nat)
  | setCall (o : Nat)
  deriving DecidableEq, Repr

/-- Oracle for the foreign option calls on the processing block: for each
option tag, whether each foreign call errors and the value it returns
when it does not. -/
structure OptionOracle where
  supportsVal : Nat → Bool
  supportsErr : Nat → Bool
  readOnlyVal : Nat → Bool
  readOnlyErr : Nat → Bool
  setErr : Nat → Option (List Char)

/-- Error type of Spatial::set_option.  The variants are those documented
at src/processing_blocks/spatial.rs lines 177-186; the defining module
crate::kind is absent from the snapshot, so the carried data follows the
check_rs2_error macro, which supplies the foreign error message. -/
inductive OptionSetError where
  | optionNotSupported
  | optionIsReadOnly
  | couldNotSetOption (msg : List Char)
  deriving DecidableEq, Repr

/-- Embedding of Spatial::supports_option (src/processing_blocks/spatial.rs
lines 124-143): one foreign call; on foreign error the error is freed and
the method returns false, otherwise it returns whether the value is
nonzero. -/
def Spatial.supports_option (w : OptionOracle) (o : Nat) :
    List FCall × Bool :=
  ([FCall.supportsCall o],
    if w.supportsErr o then false else w.supportsVal o)

/-- Embedding of Spatial::is_option_read_only
(src/processing_blocks/spatial.rs lines 148-171): returns false without a
read-only query when the option is unsupported; otherwise one more
foreign call, returning false on foreign error. -/
def Spatial.is_option_read_only (w : OptionOracle) (o : Nat) :
    List FCall × Bool :=
  let s := Spatial.supports_option w o
  if s.2 = false then (s.1, false)
  else (s.1 ++ [FCall.readOnlyCall o],
    if w.readOnlyErr o then false else w.readOnlyVal o)

/-- Embedding of Spatial::set_option (src/processing_blocks/spatial.rs
lines 187-209): reject locally when unsupported, then when read-only, and
only then issue the foreign set call. -/
def Spatial.set_option (w : OptionOracle) (o : Nat) :
    List FCall × Except OptionSetError Unit :=
  let s := Spatial.supports_option w o
  if s.2 = false then (s.1, Except.error OptionSetError.optionNotSupported)
  else
    let r := Spatial.is_option_read_only w o
    if r.2 = true then
      (s.1 ++ r.1, Except.error OptionSetError.optionIsReadOnly)
    else
      (s.1 ++ r.1 ++ [FCall.setCall o],
        match w.setErr o with
        | some msg => Except.error (OptionSetError.couldNotSetOption msg)
        | none => Except.ok ())

end RealSense

namespace RealSense

/-! ## Processing block wait and poll
(src/processing_blocks/align.rs, spatial.rs, threshold.rs) -/

/-- Rust std::time::Duration: whole seconds plus a subsecond nanosecond
count below one billion. -/
structure Duration where
  secs : Nat
  nanos : Nat
  deriving DecidableEq, Repr

/-- Embedding of Duration::as_millis: total whole milliseconds. -/
def Duration.as_millis (d : Duration) : Nat :=
  d.secs * 1000 + d.nanos / 1000000

/-- Millisecond count handed to the foreign wait call, embedding
u32::try_from(timeout.as_millis()).unwrap_or(u32::MAX) as written
identically at align.rs line 88, spatial.rs line 90 and threshold.rs
line 84: the conversion succeeds below 2^32, otherwise the cap
2^32 - 1 is used. -/
def waitTimeoutMillis (d : Duration) : Nat :=
  if d.as_millis < 2 ^ 32 then d.as_millis else 2 ^ 32 - 1

/-- Outcome of the foreign rs2_wait_for_frame call: either a dequeued
frame handle, or a foreign error carrying its message (on timeout the
foreign runtime uses the timeout message head). -/
inductive WaitResult where
  | frame (h : Nat)
  | err (msg : List Char)
  deriving DecidableEq, Repr

/-- Error produced when processing a frame
(src/processing_blocks/errors.rs lines 23-30).  The snapshot macro
check_rs2_error supplies the foreign error message; the numeric exception
kind lives in a module absent from the snapshot and no claim depends on
it, so only the message is carried here. -/
structure ProcessFrameError where
  context : List Char
  deriving DecidableEq, Repr

/-- Error cases of typed frame construction
(FrameConstructionError, named at src/frame/pose.rs lines 98 and 106). -/
inductive FrameConstructionError where
  | couldNotGetFrameStreamProfile (msg : List Char)
  | couldNotGetData (msg : List Char)
  deriving DecidableEq, Repr

/-- Modelled from the spec: the typed depth frame and its
DepthFrame::try_from constructor live in src/frame/image.rs, which is
absent from the snapshot.  Per spec section 4.3 the constructor queries
the stream profile and the decoded data through foreign calls, each of
which may fail, and on success the typed value takes ownership of the
handle.  The foreign query outcomes are the oracle below. -/
structure FrameWorld where
  profileErr : Nat → Option (List Char)
  dataErr : Nat → Option (List Char)

/-- Modelled from the spec: a depth frame owning exactly its handle
(decoded image payload omitted, no claim depends on it). -/
structure DepthFrame where
  handle : Nat
  deriving DecidableEq, Repr

/-- Modelled from the spec: DepthFrame::try_from per spec section 4.3 —
profile query, then data query, then success taking ownership. -/
def DepthFrame.tryFrom (w : FrameWorld) (h : Nat) :
    Except FrameConstructionError DepthFrame :=
  match w.profileErr h with
  | some msg => Except.error (FrameConstructionError.couldNotGetFrameStreamProfile msg)
  | none =>
    match w.dataErr h with
    | some msg => Except.error (FrameConstructionError.couldNotGetData msg)
    | none => Except.ok { handle := h }

/-- Embedding of Align::wait (src/processing_blocks/align.rs lines
85-95): compute the millisecond cap, perform the foreign wait, translate
a foreign error through check_rs2_error, and wrap a dequeued handle as a
CompositeFrame.  The foreign outcome is a function of the millisecond
count actually passed. -/
def Align.wait (d : Duration) (res : Nat → WaitResult) :
    Except ProcessFrameError CompositeFrame :=
  match res (waitTimeoutMillis d) with
  | WaitResult.err msg => Except.error { context := msg }
  | WaitResult.frame h => Except.ok (CompositeFrame.fromRaw h)

/-- Embedding of Spatial::wait (src/processing_blocks/spatial.rs lines
87-97): as Align::wait but the dequeued handle is wrapped through
DepthFrame::try_from followed by unwrap; none models the unwrap panic
when construction fails. -/
def Spatial.wait (w : FrameWorld) (d : Duration) (res : Nat → WaitResult) :
    Option (Except ProcessFrameError DepthFrame) :=
  match res (waitTimeoutMillis d) with
  | WaitResult.err msg => some (Except.error { context := msg })
  | WaitResult.frame h =>
    match DepthFrame.tryFrom w h with
    | Except.ok f => some (Except.ok f)
    | Except.error _ => none

/-- Embedding of Threshold::wait (src/processing_blocks/threshold.rs
lines 81-90), identical in structure to Spatial::wait. -/
def Threshold.wait (w : FrameWorld) (d : Duration) (res : Nat → WaitResult) :
    Option (Except ProcessFrameError DepthFrame) :=
  match res (waitTimeoutMillis d) with
  | WaitResult.err msg => some (Except.error { context := msg })
  | WaitResult.frame h =>
    match DepthFrame.tryFrom w h with
    | Except.ok f => some (Except.ok f)
    | Except.error _ => none

/-- Rust std::task::Poll. -/
inductive Poll (α : Type) where
  | pending
  | ready (value : α)
  deriving DecidableEq, Repr

/-- Foreign rs2_poll_for_frame on the bound FIFO output queue, per the
spec contract (sections 5 and 6): an empty queue reports not-ready and
deposits no frame; otherwise the head frame is dequeued.  Returns the new
queue state, the is_ready flag, and the frame slot. -/
def rs2_poll_for_frame (q : List Nat) : List Nat × Bool × Option Nat :=
  match q with
  | [] => ([], false, none)
  | h :: t => (t, true, some h)

/-- Embedding of Align::poll (src/processing_blocks/align.rs lines
98-117): one foreign poll call; is_ready zero yields Pending, otherwise
Ready wrapping the dequeued handle (none models the unwrap panic when
ready is reported with a null frame).  Returns the queue state after the
single foreign dequeue together with the result. -/
def Align.poll (q : List Nat) :
    List Nat × Option (Poll CompositeFrame) :=
  let r := rs2_poll_for_frame q
  match r.2.1, r.2.2 with
  | false, _ => (r.1, some Poll.pending)
  | true, some h => (r.1, some (Poll.ready (CompositeFrame.fromRaw h)))
  | true, none => (r.1, none)

/-! ## Pose frame confidence (src/frame/pose.rs) -/

/-- Confidence levels (src/frame/pose.rs lines 13-18). -/
inductive Confidence where
  | failed
  | low
  | medium
  | high
  deriving DecidableEq, Repr

/-- Pose payload delivered by the foreign runtime: the two confidence
fields of the foreign rs2_pose struct (vector fields omitted, no claim
depends on them). -/
structure Rs2Pose where
  tracker_confidence : Nat
  mapper_confidence : Nat
  deriving DecidableEq, Repr

/-- PoseFrame (src/frame/pose.rs lines 7-11): owned handle plus decoded
pose payload (the stream profile is omitted, no claim depends on it). -/
structure PoseFrame where
  frame_ptr : Nat
  data : Rs2Pose
  deriving DecidableEq, Repr

/-- Embedding of PoseFrame::tracker_confidence (src/frame/pose.rs lines
55-63): decodes the tracker_confidence field of the payload; none models
the panic on an unknown value. -/
def PoseFrame.tracker_confidence (f : PoseFrame) : Option Confidence :=
  match f.data.tracker_confidence with
  | 0 => some Confidence.failed
  | 1 => some Confidence.low
  | 2 => some Confidence.medium
  | 3 => some Confidence.high
  | _ => none

/-- Embedding of PoseFrame::mapper_confidence (src/frame/pose.rs lines
65-73): the source body reads the tracker_confidence field of the
payload, exactly as tracker_confidence does. -/
def PoseFrame.mapper_confidence (f : PoseFrame) : Option Confidence :=
  match f.data.tracker_confidence with
  | 0 => some Confidence.failed
  | 1 => some Confidence.low
  | 2 => some Confidence.medium
  | 3 => some Confidence.high
  | _ => none

/-! ## Concrete values used by witness statements -/

/-- Sample foreign timeout message, the timeout head followed by a
duration. -/
def sampleTimeoutMsg : List Char := timeoutMsgHead ++ "5000".data

/-- Option oracle on which every foreign option call succeeds and every
option is unsupported. -/
def noSupportOracle : OptionOracle :=
  { supportsVal := fun _ => false
    supportsErr := fun _ => false
    readOnlyVal := fun _ => false
    readOnlyErr := fun _ => false
    setErr := fun _ => none }

/-- Option oracle on which every option is supported and read-only. -/
def readOnlyOracle : OptionOracle :=
  { supportsVal := fun _ => true
    supportsErr := fun _ => false
    readOnlyVal := fun _ => true
    readOnlyErr := fun _ => false
    setErr := fun _ => none }

/-- Frame world on which every typed construction succeeds. -/
def cleanFrameWorld : FrameWorld :=
  { profileErr := fun _ => none
    dataErr := fun _ => none }

/-- Sample element outcome whose extraction fails. -/
def failedExtract : ElemOutcome :=
  { extractOk := false, handle := 0, extendErr := false,
    isExtendable := false, tryFromOk := false, correctKind := false }

/-- Sample element outcome passing every check. -/
def goodElem : ElemOutcome :=
  { extractOk := true, handle := 4, extendErr := false,
    isExtendable := true, tryFromOk := true, correctKind := true }

/-- Sample element outcome whose kind does not match. -/
def wrongKindElem : ElemOutcome :=
  { extractOk := true, handle := 9, extendErr := false,
    isExtendable := true, tryFromOk := true, correctKind := false }

end RealSense

namespace RealSense

/-! ## Supporting lemmas -/

/-- Lemma: a successful prefix test forces the message to begin with the
head character of the tested text. -/
theorem strStarts_head_agrees (p msg : List Char) (x : Char)
    (hp : p.head? = some x) (h : strStarts p msg = true) :
    msg.head? = some x := by
  cases p with
  | nil => simp at hp
  | cons a as =>
    simp at hp
    cases msg with
    | nil => simp [strStarts] at h
    | cons c cs =>
      simp [strStarts] at h
      simp [← hp, h.1]

/-- Lemma: the two classification heads start with distinct characters,
so no message can carry both. -/
theorem strStarts_msgHeads_disjoint (msg : List Char)
    (h : strStarts unsupportedMsgHead msg = true) :
    strStarts timeoutMsgHead msg = false := by
  cases hb : strStarts timeoutMsgHead msg with
  | false => rfl
  | true =>
    have h1 := strStarts_head_agrees unsupportedMsgHead msg 'o' (by decide) h
    have h2 := strStarts_head_agrees timeoutMsgHead msg 'F' (by decide) hb
    rw [h1] at h2
    exact absurd (Option.some.inj h2) (by decide)

/-! ## Claim theorems -/

/-- Claim C2: ErrorChecker::check returns Ok exactly when the foreign
error slot is null; when the slot is non-null it returns an Err whose
variant is chosen by message head: the timeout head gives Timeout, the
unsupported-option head gives UnsupportedOption, and any other message
gives Other. -/
theorem errorChecker_check_classification (c : ErrorChecker) :
    (c.check.2 = Except.ok () ↔ c.ptr = none) ∧
    (∀ msg, c.ptr = some msg →
      c.check.2 = Except.error (classifyError msg)) ∧
    (∀ msg, strStarts timeoutMsgHead msg = true →
      classifyError msg = RsError.timeout msg) ∧
    (∀ msg, strStarts unsupportedMsgHead msg = true →
      classifyError msg = RsError.unsupportedOption msg) ∧
    (∀ msg, strStarts timeoutMsgHead msg = false →
      strStarts unsupportedMsgHead msg = false →
      classifyError msg = RsError.other msg) := by
  refine ⟨?_, ?_, ?_, ?_, ?_⟩
  · cases hp : c.ptr <;> simp [ErrorChecker.check, hp]
  · intro msg hp
    simp [ErrorChecker.check, hp]
  · intro msg hm
    simp [classifyError, hm]
  · intro msg hm
    have hn := strStarts_msgHeads_disjoint msg hm
    simp [classifyError, hm, hn]
  · intro msg h1 h2
    simp [classifyError, h1, h2]

/-- Witness for C2: a concrete timeout-headed message in a filled slot is
classified as Timeout. -/
theorem errorChecker_check_classification_witness :
    classifyError sampleTimeoutMsg = RsError.timeout sampleTimeoutMsg :=
  (errorChecker_check_classification
      (ErrorChecker.new.fillSlot (some sampleTimeoutMsg))).2.2.1
    sampleTimeoutMsg (by decide)

/-- Claim C4: dropping an ErrorChecker on which check was never called
panics; once check has been called, dropping the checker does not
panic. -/
theorem errorChecker_drop_discipline (p : Option (List Char))
    (c : ErrorChecker) :
    (ErrorChecker.new.fillSlot p).dropPanics = true ∧
    c.check.1.dropPanics = false := by
  refine ⟨rfl, ?_⟩
  cases hp : c.ptr <;>
    simp [ErrorChecker.check, ErrorChecker.dropPanics, hp]

/-- Claim C3: taking the handle out of a CompositeFrame with
get_owned_raw yields the owned handle, clears the slot of the original
wrapper so that its drop releases nothing, and re-wrapping the handle
gives a wrapper whose drop releases it exactly once — the same total as
never transferring. -/
theorem compositeFrame_transfer_roundtrip (h : Nat) :
    ((CompositeFrame.fromRaw h).get_owned_raw).2 = some h ∧
    ((CompositeFrame.fromRaw h).get_owned_raw).1.frame = none ∧
    ((CompositeFrame.fromRaw h).get_owned_raw).1.dropReleases = [] ∧
    (CompositeFrame.fromRaw h).dropReleases = [h] ∧
    ((CompositeFrame.fromRaw h).get_owned_raw).1.dropReleases ++
        (CompositeFrame.fromRaw h).dropReleases =
      (CompositeFrame.fromRaw h).dropReleases := by
  exact ⟨rfl, rfl, rfl, rfl, rfl⟩

/-- Claim C9: mapper_confidence returns the same Confidence value as
tracker_confidence, both decoding the tracker-confidence field of the
pose payload with 0 failed, 1 low, 2 medium and 3 high. -/
theorem poseFrame_mapper_eq_tracker (f : PoseFrame) :
    f.mapper_confidence = f.tracker_confidence ∧
    (f.data.tracker_confidence = 0 →
      f.tracker_confidence = some Confidence.failed) ∧
    (f.data.tracker_confidence = 1 →
      f.tracker_confidence = some Confidence.low) ∧
    (f.data.tracker_confidence = 2 →
      f.tracker_confidence = some Confidence.medium) ∧
    (f.data.tracker_confidence = 3 →
      f.tracker_confidence = some Confidence.high) := by
  refine ⟨rfl, ?_, ?_, ?_, ?_⟩ <;>
    intro hv <;> simp [PoseFrame.tracker_confidence, hv]

/-- Witness for C9: a concrete pose frame with tracker confidence 2 and a
different mapper-confidence payload field decodes both getters to
Medium. -/
theorem poseFrame_mapper_eq_tracker_witness :
    PoseFrame.mapper_confidence { frame_ptr := 3, data := ⟨2, 0⟩ } =
      PoseFrame.tracker_confidence { frame_ptr := 3, data := ⟨2, 0⟩ } ∧
    PoseFrame.tracker_confidence { frame_ptr := 3, data := ⟨2, 0⟩ } =
      some Confidence.medium :=
  ⟨(poseFrame_mapper_eq_tracker { frame_ptr := 3, data := ⟨2, 0⟩ }).1,
    (poseFrame_mapper_eq_tracker { frame_ptr := 3, data := ⟨2, 0⟩ }).2.2.2.1
      rfl⟩

/-- Claim C10: the millisecond count passed to the foreign wait call by
the three wait methods equals min of the timeout in milliseconds and the
32-bit cap; a longer timeout is silently capped, never rejected. -/
theorem wait_timeout_millis_saturates (d : Duration) (w : FrameWorld)
    (res : Nat → WaitResult) :
    waitTimeoutMillis d = min d.as_millis (2 ^ 32 - 1) ∧
    (2 ^ 32 - 1 < d.as_millis → waitTimeoutMillis d = 2 ^ 32 - 1) ∧
    Align.wait d res =
      Align.wait d (fun _ => res (min d.as_millis (2 ^ 32 - 1))) ∧
    Spatial.wait w d res =
      Spatial.wait w d (fun _ => res (min d.as_millis (2 ^ 32 - 1))) ∧
    Threshold.wait w d res =
      Threshold.wait w d (fun _ => res (min d.as_millis (2 ^ 32 - 1))) := by
  have h1 : waitTimeoutMillis d = min d.as_millis (2 ^ 32 - 1) := by
    unfold waitTimeoutMillis
    split <;> omega
  refine ⟨h1, ?_, ?_, ?_, ?_⟩
  · intro hl
    rw [h1]
    omega
  · unfold Align.wait
    rw [h1]
  · unfold Spatial.wait
    rw [h1]
  · unfold Threshold.wait
    rw [h1]

/-- Witness for C10: a timeout of 2^32 seconds is capped at the 32-bit
maximum. -/
theorem wait_timeout_millis_saturates_witness :
    waitTimeoutMillis { secs := 4294967296, nanos := 0 } = 2 ^ 32 - 1 :=
  (wait_timeout_millis_saturates { secs := 4294967296, nanos := 0 }
      cleanFrameWorld (fun _ => WaitResult.frame 0)).2.1 (by decide)

/-- Lemma: pushed handles distribute over event-list concatenation. -/
theorem pushedOf_append (a b : List Event) :
    pushedOf (a ++ b) = pushedOf a ++ pushedOf b := by
  simp [pushedOf, List.filterMap_append]

/-- Lemma: one loop iteration pushes the element handle exactly when the
element passes every check, and pushes nothing otherwise. -/
theorem pushed_processElem (kindAny : Bool) (e : ElemOutcome) :
    pushedOf (processElem kindAny e) =
      if passesChecks kindAny e then [e.handle] else [] := by
  obtain ⟨xo, hv, xe, xi, xt, xc⟩ := e
  cases xo <;> cases xe <;> cases xi <;> cases xt <;> cases xc <;>
    cases kindAny <;> simp [processElem, passesChecks, pushedOf]

/-- Lemma: one loop iteration releases the element handle exactly when
extraction succeeded but some later check failed. -/
theorem released_processElem (kindAny : Bool) (e : ElemOutcome) :
    releasedOf (processElem kindAny e) =
      if e.extractOk && !passesChecks kindAny e then [e.handle] else [] := by
  obtain ⟨xo, hv, xe, xi, xt, xc⟩ := e
  cases xo <;> cases xe <;> cases xi <;> cases xt <;> cases xc <;>
    cases kindAny <;> simp [processElem, passesChecks, releasedOf]

/-- Lemma: the extraction loop over a cons is the head iteration followed
by the loop over the tail. -/
theorem frames_of_type_cons (kindAny : Bool) (e : ElemOutcome)
    (es : List ElemOutcome) :
    frames_of_type kindAny (e :: es) =
      processElem kindAny e ++ frames_of_type kindAny es := by
  simp [frames_of_type]

/-- Lemma: an element passing every check contributes exactly one push of
its handle and nothing else. -/
theorem processElem_of_passes (kindAny : Bool) (e : ElemOutcome)
    (hp : passesChecks kindAny e = true) :
    processElem kindAny e = [Event.push e.handle] := by
  obtain ⟨xo, hv, xe, xi, xt, xc⟩ := e
  revert hp
  cases xo <;> cases xe <;> cases xi <;> cases xt <;> cases xc <;>
    cases kindAny <;> simp [processElem, passesChecks]

/-- Claim C1: frames_of_type returns exactly the elements whose handle
passes the extendability check, whose typed construction succeeds, and
whose kind matches or whose category accepts any kind; every element
handle obtained during the pass is either pushed and never released, or
released exactly once and never pushed. -/
theorem frames_of_type_extraction (kindAny : Bool)
    (elems : List ElemOutcome) :
    pushedOf (frames_of_type kindAny elems) =
      (elems.filter fun e => passesChecks kindAny e).map
        (fun e => e.handle) ∧
    (∀ e, e ∈ elems → e.extractOk = true →
      (passesChecks kindAny e = true →
        processElem kindAny e = [Event.push e.handle] ∧
        releasedOf (processElem kindAny e) = []) ∧
      (passesChecks kindAny e = false →
        releasedOf (processElem kindAny e) = [e.handle] ∧
        pushedOf (processElem kindAny e) = [])) := by
  constructor
  · induction elems with
    | nil => simp [frames_of_type, pushedOf]
    | cons e es ih =>
      rw [frames_of_type_cons, pushedOf_append, ih, pushed_processElem,
        List.filter_cons]
      by_cases hp : passesChecks kindAny e = true <;> simp [hp]
  · intro e _ hex
    constructor
    · intro hp
      refine ⟨processElem_of_passes kindAny e hp, ?_⟩
      rw [released_processElem, hp]
      simp
    · intro hp
      rw [released_processElem, pushed_processElem, hp, hex]
      simp

/-- Witness for C1: on a two-element bundle, the passing element is
pushed and not released. -/
theorem frames_of_type_extraction_witness :
    processElem false goodElem = [Event.push goodElem.handle] ∧
    releasedOf (processElem false goodElem) = [] :=
  ((frames_of_type_extraction false [goodElem, wrongKindElem]).2 goodElem
    (by decide) (by decide)).1 (by decide)

/-- Claim C8: a foreign-call error while extracting one element frees the
foreign error, skips that index, and leaves the processing of every other
index unchanged. -/
theorem frames_of_type_skip_extract_error (kindAny : Bool)
    (pre post : List ElemOutcome) (e : ElemOutcome)
    (hex : e.extractOk = false) :
    frames_of_type kindAny (pre ++ e :: post) =
      frames_of_type kindAny pre ++ [Event.freeError] ++
        frames_of_type kindAny post ∧
    pushedOf (frames_of_type kindAny (pre ++ e :: post)) =
      pushedOf (frames_of_type kindAny pre) ++
        pushedOf (frames_of_type kindAny post) := by
  have hpe : processElem kindAny e = [Event.freeError] := by
    simp [processElem, hex]
  have h1 : frames_of_type kindAny (pre ++ e :: post) =
      frames_of_type kindAny pre ++ [Event.freeError] ++
        frames_of_type kindAny post := by
    simp [frames_of_type, hpe]
  refine ⟨h1, ?_⟩
  rw [h1, pushedOf_append, pushedOf_append]
  simp [pushedOf]

/-- Witness for C8: a failing middle element contributes exactly one
error free between the two good iterations. -/
theorem frames_of_type_skip_extract_error_witness :
    frames_of_type false ([goodElem] ++ failedExtract :: [wrongKindElem]) =
      frames_of_type false [goodElem] ++ [Event.freeError] ++
        frames_of_type false [wrongKindElem] ∧
    pushedOf (frames_of_type false
        ([goodElem] ++ failedExtract :: [wrongKindElem])) =
      pushedOf (frames_of_type false [goodElem]) ++
        pushedOf (frames_of_type false [wrongKindElem]) :=
  frames_of_type_skip_extract_error false [goodElem] [wrongKindElem]
    failedExtract (by decide)

/-- Lemma: neither option query of the Spatial block ever issues the
foreign set call. -/
theorem setCall_not_in_queries (w : OptionOracle) (o : Nat) :
    FCall.setCall o ∉ (Spatial.supports_option w o).1 ∧
    FCall.setCall o ∉ (Spatial.is_option_read_only w o).1 := by
  constructor
  · unfold Spatial.supports_option
    simp
  · unfold Spatial.is_option_read_only Spatial.supports_option
    by_cases h1 : w.supportsErr o = true <;>
      by_cases h2 : w.supportsVal o = false <;>
        by_cases h3 : w.readOnlyErr o = true <;>
          simp [h1, h2, h3]

/-- Claim C5: Spatial::set_option rejects an unsupported option with
OptionNotSupported without issuing the foreign set call, rejects a
supported read-only option with OptionIsReadOnly without issuing the
foreign set call, and issues the foreign set call exactly when the option
is supported and not read-only. -/
theorem spatial_set_option_gating (w : OptionOracle) (o : Nat) :
    ((Spatial.supports_option w o).2 = false →
      (Spatial.set_option w o).2 =
        Except.error OptionSetError.optionNotSupported ∧
      FCall.setCall o ∉ (Spatial.set_option w o).1) ∧
    ((Spatial.supports_option w o).2 = true →
      (Spatial.is_option_read_only w o).2 = true →
      (Spatial.set_option w o).2 =
        Except.error OptionSetError.optionIsReadOnly ∧
      FCall.setCall o ∉ (Spatial.set_option w o).1) ∧
    (FCall.setCall o ∈ (Spatial.set_option w o).1 ↔
      (Spatial.supports_option w o).2 = true ∧
      (Spatial.is_option_read_only w o).2 = false) := by
  obtain ⟨hns, hnr⟩ := setCall_not_in_queries w o
  refine ⟨?_, ?_, ?_⟩
  · intro hb1
    have hset : Spatial.set_option w o =
        ((Spatial.supports_option w o).1,
          Except.error OptionSetError.optionNotSupported) := by
      unfold Spatial.set_option
      simp [hb1]
    rw [hset]
    exact ⟨rfl, hns⟩
  · intro hb1 hb2
    have hset : Spatial.set_option w o =
        ((Spatial.supports_option w o).1 ++
            (Spatial.is_option_read_only w o).1,
          Except.error OptionSetError.optionIsReadOnly) := by
      unfold Spatial.set_option
      simp [hb1, hb2]
    rw [hset]
    refine ⟨rfl, ?_⟩
    simp [List.mem_append]
    exact ⟨hns, hnr⟩
  · cases hb1 : (Spatial.supports_option w o).2 with
    | false =>
      have hset : Spatial.set_option w o =
          ((Spatial.supports_option w o).1,
            Except.error OptionSetError.optionNotSupported) := by
        unfold Spatial.set_option
        simp [hb1]
      rw [hset]
      simp [hb1]
      exact hns
    | true =>
      cases hb2 : (Spatial.is_option_read_only w o).2 with
      | true =>
        have hset : Spatial.set_option w o =
            ((Spatial.supports_option w o).1 ++
                (Spatial.is_option_read_only w o).1,
              Except.error OptionSetError.optionIsReadOnly) := by
          unfold Spatial.set_option
          simp [hb1, hb2]
        rw [hset]
        simp [hb2, List.mem_append]
        exact ⟨hns, hnr⟩
      | false =>
        have hset : Spatial.set_option w o =
            ((Spatial.supports_option w o).1 ++
                (Spatial.is_option_read_only w o).1 ++ [FCall.setCall o],
              match w.setErr o with
              | some msg =>
                Except.error (OptionSetError.couldNotSetOption msg)
              | none => Except.ok ()) := by
          unfold Spatial.set_option
          simp [hb1, hb2]
        rw [hset]
        simp [hb1, hb2, List.mem_append]

/-- Witness for C5: on an oracle supporting nothing, setting option 3 is
rejected locally and no foreign set call is issued. -/
theorem spatial_set_option_gating_witness :
    (Spatial.set_option noSupportOracle 3).2 =
      Except.error OptionSetError.optionNotSupported ∧
    FCall.setCall 3 ∉ (Spatial.set_option noSupportOracle 3).1 :=
  (spatial_set_option_gating noSupportOracle 3).1 (by decide)

/-- Claim C6: a foreign wait outcome carrying a timeout-headed message is
returned as an error whose message the classification layer reports as
Timeout, by all three wait methods; a successful wait wraps the dequeued
handle as the output category of the block, CompositeFrame for Align and
DepthFrame for Spatial and Threshold. -/
theorem wait_timeout_classification (w : FrameWorld) (d : Duration)
    (msg : List Char) (hmsg : strStarts timeoutMsgHead msg = true)
    (hdl : Nat)
    (hok : DepthFrame.tryFrom w hdl = Except.ok { handle := hdl }) :
    classifyError msg = RsError.timeout msg ∧
    Align.wait d (fun _ => WaitResult.err msg) =
      Except.error { context := msg } ∧
    Spatial.wait w d (fun _ => WaitResult.err msg) =
      some (Except.error { context := msg }) ∧
    Threshold.wait w d (fun _ => WaitResult.err msg) =
      some (Except.error { context := msg }) ∧
    Align.wait d (fun _ => WaitResult.frame hdl) =
      Except.ok (CompositeFrame.fromRaw hdl) ∧
    Spatial.wait w d (fun _ => WaitResult.frame hdl) =
      some (Except.ok { handle := hdl }) ∧
    Threshold.wait w d (fun _ => WaitResult.frame hdl) =
      some (Except.ok { handle := hdl }) := by
  refine ⟨?_, rfl, rfl, rfl, rfl, ?_, ?_⟩
  · simp [classifyError, hmsg]
  · simp [Spatial.wait, hok]
  · simp [Threshold.wait, hok]

/-- Witness for C6: a concrete timeout-headed message classifies as
Timeout and a concrete dequeued handle is wrapped as a depth frame. -/
theorem wait_timeout_classification_witness :
    classifyError sampleTimeoutMsg = RsError.timeout sampleTimeoutMsg ∧
    Spatial.wait cleanFrameWorld { secs := 0, nanos := 0 }
        (fun _ => WaitResult.frame 7) =
      some (Except.ok { handle := 7 }) :=
  ⟨(wait_timeout_classification cleanFrameWorld { secs := 0, nanos := 0 }
      sampleTimeoutMsg (by decide) 7 rfl).1,
    (wait_timeout_classification cleanFrameWorld { secs := 0, nanos := 0 }
      sampleTimeoutMsg (by decide) 7 rfl).2.2.2.2.2.1⟩

/-- Claim C7: Align::poll on an empty queue returns Pending and dequeues
nothing; on a nonempty queue it returns Ready carrying exactly the head
frame dequeued by the single foreign poll call, so an immediately
following poll of the emptied queue returns Pending again. -/
theorem align_poll_nonblocking (h : Nat) (t : List Nat) :
    Align.poll [] = ([], some Poll.pending) ∧
    Align.poll (h :: t) = (t, some (Poll.ready (CompositeFrame.fromRaw h))) ∧
    (Align.poll [h]).1 = [] ∧
    (Align.poll (Align.poll [h]).1).2 = some Poll.pending := by
  exact ⟨rfl, rfl, rfl, rfl⟩

end RealSense
